import Mathlib

/-!
Verification of the `e621_downloader` configuration/login subsystem
(`src/e621/io/mod.rs`).

The Rust module manages two JSON files (`config.json`, `login.json`),
validated and repaired on load, and two process-wide once-cells.  We embed
it shallowly:

* the filesystem is a pair of `Option String` file contents;
* fallible I/O calls are driven by an `IoBehavior` record of failure flags;
* the external serialization collaborator (`serde_json`) is modelled by an
  executable JSON scanner/printer for the flat object schemas the two
  structs use (string and boolean scalar fields, field renaming, and the
  serde `default` attributes of `Login`), as described in section 6 of the
  specification;
* the two `OnceCell` singletons are `Option` slots inside a `World` record,
  and each Rust function becomes a pure function on `World`/file state.
-/

namespace E621

/-! ### Characters and JSON scanning (model of the serde_json collaborator) -/

/-- Whitespace skipping used by the JSON scanner. -/
def skipWs : List Char → List Char
  | [] => []
  | c :: cs => if c = ' ' || c = '\n' || c = '\t' || c = '\r' then skipWs cs else c :: cs

/-- Decoding of a single backslash escape inside a JSON string literal. -/
def decodeEscape (c : Char) : Option Char :=
  if c = '"' then some '"'
  else if c = '\\' then some '\\'
  else if c = '/' then some '/'
  else if c = 'n' then some '\n'
  else if c = 't' then some '\t'
  else if c = 'r' then some '\r'
  else if c = 'b' then some (Char.ofNat 8)
  else if c = 'f' then some (Char.ofNat 12)
  else none

/-- Scans the body of a JSON string after the opening quote.  Returns the
decoded characters together with the input following the closing quote. -/
def scanString : List Char → Option (List Char × List Char)
  | [] => none
  | c :: cs =>
    if c = '"' then some ([], cs)
    else if c = '\\' then
      match cs with
      | [] => none
      | e :: cs2 =>
        match decodeEscape e with
        | none => none
        | some d =>
          match scanString cs2 with
          | none => none
          | some (content, rest) => some (d :: content, rest)
    else
      match scanString cs with
      | none => none
      | some (content, rest) => some (c :: content, rest)

/-- Characters that may occur inside a JSON number token. -/
def isNumChar (c : Char) : Bool :=
  c.isDigit || c = '-' || c = '+' || c = '.' || c = 'e' || c = 'E'

/-- A scalar JSON value: the only value forms the two schemas use. -/
inductive JValue where
  | jstr (s : String)
  | jbool (b : Bool)
  | jnum (raw : String)
  | jnull
deriving DecidableEq, Repr

/-- Scans one scalar JSON value. -/
def parseValue : List Char → Option (JValue × List Char)
  | [] => none
  | c :: cs =>
    if c = '"' then
      match scanString cs with
      | some (content, rest) => some (JValue.jstr (String.mk content), rest)
      | none => none
    else if c = 't' then
      if cs.take 3 = ['r', 'u', 'e'] then some (JValue.jbool true, cs.drop 3) else none
    else if c = 'f' then
      if cs.take 4 = ['a', 'l', 's', 'e'] then some (JValue.jbool false, cs.drop 4) else none
    else if c = 'n' then
      if cs.take 3 = ['u', 'l', 'l'] then some (JValue.jnull, cs.drop 3) else none
    else if c.isDigit || c = '-' then
      some (JValue.jnum (String.mk ((c :: cs).takeWhile isNumChar)), (c :: cs).dropWhile isNumChar)
    else none

/-- Scans one `"key": value` member (leading whitespace allowed). -/
def parseMember (l : List Char) : Option ((String × JValue) × List Char) :=
  match skipWs l with
  | [] => none
  | c :: cs =>
    if c = '"' then
      match scanString cs with
      | some (key, rest) =>
        match skipWs rest with
        | [] => none
        | c2 :: rest2 =>
          if c2 = ':' then
            match parseValue (skipWs rest2) with
            | some (v, rest3) => some ((String.mk key, v), rest3)
            | none => none
          else none
      | none => none
    else none

/-- Scans a comma-separated member list up to and including the closing
brace.  The fuel argument bounds the number of members. -/
def parseMembersAux : Nat → List Char → Option (List (String × JValue) × List Char)
  | 0, _ => none
  | fuel + 1, l =>
    match parseMember l with
    | none => none
    | some (kv, rest) =>
      match skipWs rest with
      | [] => none
      | c :: rest2 =>
        if c = ',' then
          match parseMembersAux fuel rest2 with
          | some (kvs, rest3) => some (kv :: kvs, rest3)
          | none => none
        else if c = '\x7d' then some ([kv], rest2)
        else none

/-- Parses a whole JSON document that must be a single flat object, as
`serde_json::from_str` does for the `Config` and `Login` schemas.  Returns
the member list, or `none` on malformed input or trailing garbage. -/
def parseObject (s : String) : Option (List (String × JValue)) :=
  match skipWs s.data with
  | [] => none
  | c :: rest =>
    if c = '\x7b' then
      match skipWs rest with
      | [] => none
      | c2 :: rest2 =>
        if c2 = '\x7d' then (if skipWs rest2 = [] then some [] else none)
        else
          match parseMembersAux ((c2 :: rest2).length + 1) (c2 :: rest2) with
          | some (kvs, rest3) => if skipWs rest3 = [] then some kvs else none
          | none => none
    else none

/-- First value bound to `key`, scanning members in order. -/
def lookupField : List (String × JValue) → String → Option JValue
  | [], _ => none
  | (k, v) :: rest, key => if k = key then some v else lookupField rest key

/-! ### JSON printing (model of `serde_json::to_string_pretty`) -/

/-- Escaping of one character inside a printed JSON string. -/
def escapeChar (c : Char) : List Char :=
  if c = '"' then ['\\', '"'] else if c = '\\' then ['\\', '\\'] else [c]

/-- Escaping of a character sequence inside a printed JSON string. -/
def escapeList : List Char → List Char
  | [] => []
  | c :: cs => escapeChar c ++ escapeList cs

/-- A printed JSON string literal, continuation style: quote, escaped
content, closing quote, then `rest`. -/
def quoteJson (s : String) (rest : List Char) : List Char :=
  '"' :: (escapeList s.data ++ '"' :: rest)

/-- A printed JSON boolean, continuation style. -/
def boolJson : Bool → List Char → List Char
  | true, rest => 't' :: 'r' :: 'u' :: 'e' :: rest
  | false, rest => 'f' :: 'a' :: 'l' :: 's' :: 'e' :: rest

/-! ### Executable substring test (model of Rust `str::contains`) -/

/-- Does `hay` start with `needle`? -/
def startsWith : List Char → List Char → Bool
  | [], _ => true
  | _ :: _, [] => false
  | n :: ns, h :: hs => if n = h then startsWith ns hs else false

/-- Does `needle` occur contiguously inside `hay`? -/
def occursIn : List Char → List Char → Bool
  | [], needle => needle.isEmpty
  | c :: t, needle => startsWith needle (c :: t) || occursIn t needle

/-- Model of Rust `content.contains(key)` for string slices. -/
def strContains (content key : String) : Bool :=
  occursIn content.data key.data

/-- Model of Rust `str::to_lowercase`, character by character (ASCII case
mapping; the enumerated naming conventions are pure ASCII). -/
def toLowerStr (s : String) : String :=
  String.mk (s.data.map Char.toLower)

/-! ### Data model (`Config`, `Login`, errors, filesystem and cells) -/

/-- `Config` struct: general setup (`src/e621/io/mod.rs`, lines 37-45).
Serde renames: `downloadDirectory`, `fileNamingConvention`. -/
structure Config where
  download_directory : String
  naming_convention : String
deriving DecidableEq, Repr

/-- `Login` struct: login information (`src/e621/io/mod.rs`, lines 127-141).
Serde renames: `Username`, `APIKey`, `DownloadFavorites`,
`IgnoreBlacklistOnFavorites`; every field carries a serde default. -/
structure Login where
  username : String
  api_key : String
  download_favorites : Bool
  ignore_blacklist_on_favorites : Bool
deriving DecidableEq, Repr

/-- Error kinds of the module, following section 7 of the specification:
I/O failure, JSON parse failure, validation failure, lifecycle failure.
The Rust code carries them all as `anyhow::Error` with a message. -/
inductive Err where
  | ioErr (msg : String)
  | parseErr (msg : String)
  | validationErr (msg : String)
  | lifecycleErr (msg : String)
deriving DecidableEq, Repr

/-- Failure switches for the fallible filesystem calls.  A `true` flag makes
the corresponding `std::fs` call return an error. -/
structure IoBehavior where
  configReadFails : Bool
  configWriteFails : Bool
  loginReadFails : Bool
  loginWriteFails : Bool
deriving DecidableEq, Repr

/-- The behavior in which every filesystem call succeeds. -/
def ioOk : IoBehavior := ⟨false, false, false, false⟩

/-- Equality of modelled call results is decidable, so concrete runs can be
checked by evaluation. -/
instance exceptDecEq {ε α : Type} [DecidableEq ε] [DecidableEq α] :
    DecidableEq (Except ε α) := fun a b =>
  match a, b with
  | Except.error e, Except.error f =>
    if h : e = f then Decidable.isTrue (by rw [h])
    else Decidable.isFalse (fun hh => by cases hh; exact h rfl)
  | Except.error _, Except.ok _ => Decidable.isFalse (fun hh => Except.noConfusion hh)
  | Except.ok _, Except.error _ => Decidable.isFalse (fun hh => Except.noConfusion hh)
  | Except.ok u, Except.ok v =>
    if h : u = v then Decidable.isTrue (by rw [h])
    else Decidable.isFalse (fun hh => by cases hh; exact h rfl)

/-- Process state: the two files on disk (`none` = absent) and the two
`OnceCell` singleton slots (`none` = uninitialized). -/
structure World where
  configFile : Option String
  loginFile : Option String
  configCell : Option Config
  loginCell : Option Login
deriving DecidableEq, Repr

/-! ### serde_json decode for the two schemas -/

/-- serde decode of `Config`: both fields are required strings; unknown
members are ignored (serde default behavior); `none` is a parse error. -/
def from_str_config (s : String) : Option Config :=
  match parseObject s with
  | none => none
  | some fields =>
    match lookupField fields "downloadDirectory", lookupField fields "fileNamingConvention" with
    | some (JValue.jstr d), some (JValue.jstr n) =>
      some { download_directory := d, naming_convention := n }
    | _, _ => none

/-- A string field with a serde default: absent means the default, present
with a non-string value is a type error. -/
def getStringField (fields : List (String × JValue)) (key : String) (dflt : String) :
    Option String :=
  match lookupField fields key with
  | none => some dflt
  | some (JValue.jstr s) => some s
  | some _ => none

/-- A boolean field with a serde default. -/
def getBoolField (fields : List (String × JValue)) (key : String) (dflt : Bool) :
    Option Bool :=
  match lookupField fields key with
  | none => some dflt
  | some (JValue.jbool b) => some b
  | some _ => none

/-- serde decode of `Login`: every field is optional with the defaults
`""`, `""`, `true`, `true` (`default` / `default_true` in the source). -/
def from_str_login (s : String) : Option Login :=
  match parseObject s with
  | none => none
  | some fields =>
    match getStringField fields "Username" "", getStringField fields "APIKey" "",
        getBoolField fields "DownloadFavorites" true,
        getBoolField fields "IgnoreBlacklistOnFavorites" true with
    | some u, some a, some df, some ib =>
      some { username := u, api_key := a, download_favorites := df,
             ignore_blacklist_on_favorites := ib }
    | _, _, _, _ => none

/-! ### serde_json pretty-printing for the two schemas -/

/-- `to_string_pretty` for `Config`: a two-space-indented flat object with
the two renamed fields, e.g.
`\x7b "downloadDirectory": "downloads/", "fileNamingConvention": "md5" \x7d`
across three lines. -/
def to_string_pretty_config (c : Config) : String :=
  String.mk ("\x7b\n  \"downloadDirectory\": ".data ++
    quoteJson c.download_directory (",\n  \"fileNamingConvention\": ".data ++
      quoteJson c.naming_convention "\n\x7d".data))

/-- `to_string_pretty` for `Login`: a two-space-indented flat object with
the four renamed fields in declaration order. -/
def to_string_pretty_login (l : Login) : String :=
  String.mk ("\x7b\n  \"Username\": ".data ++
    quoteJson l.username (",\n  \"APIKey\": ".data ++
      quoteJson l.api_key (",\n  \"DownloadFavorites\": ".data ++
        boolJson l.download_favorites (",\n  \"IgnoreBlacklistOnFavorites\": ".data ++
          boolJson l.ignore_blacklist_on_favorites "\n\x7d".data))))

/-! ### The operations of the module -/

/-- `Config::default` (lines 111-119). -/
def Config.defaultValue : Config :=
  { download_directory := "downloads/", naming_convention := "md5" }

/-- `Login::default` (lines 252-262). -/
def Login.defaultValue : Login :=
  { username := "", api_key := "", download_favorites := true,
    ignore_blacklist_on_favorites := true }

/-- `Config::load_config` (lines 93-108): read `config.json`, deserialize,
lowercase the naming convention, reject anything outside `md5`/`id`. -/
def Config.load_config (fs : Option String) (io : IoBehavior) : Except Err Config :=
  match fs with
  | none => Except.error (Err.ioErr "Failed to read config file: config.json")
  | some content =>
    if io.configReadFails then
      Except.error (Err.ioErr "Failed to read config file: config.json")
    else
      match from_str_config content with
      | none => Except.error (Err.parseErr "Failed to parse config file: config.json")
      | some config0 =>
        let config : Config :=
          { config0 with naming_convention := toLowerStr config0.naming_convention }
        let convention : List String := ["md5", "id"]
        if !(convention.contains config.naming_convention) then
          Except.error (Err.validationErr
            ("Invalid naming convention: " ++ config.naming_convention ++
              ". Must be one of: [\"md5\", \"id\"]"))
        else
          Except.ok config

/-- `Config::create_config` (lines 71-76): serialize the default config and
write it to `config.json`.  Returns the result and the new file state. -/
def Config.create_config (fs : Option String) (io : IoBehavior) :
    Except Err Unit × Option String :=
  if io.configWriteFails then (Except.error (Err.ioErr "Failed to write config.json"), fs)
  else (Except.ok (), some (to_string_pretty_config Config.defaultValue))

/-- `Config::initialize` (lines 84-90): load, then set the cell once;
a second set attempt yields the lifecycle error.  Models the Rust call as a
state transformer on `World`. -/
def Config.initializeGlobal (w : World) (io : IoBehavior) : World × Except Err Unit :=
  match Config.load_config w.configFile io with
  | Except.error e => (w, Except.error e)
  | Except.ok config =>
    match w.configCell with
    | some _ => (w, Except.error (Err.lifecycleErr "Config has already been initialized!"))
    | none => ({ w with configCell := some config }, Except.ok ())

/-- The outcome of `OnceCell::get().expect(...)`: either the stored value,
or a fatal panic with the expect message. -/
inductive GetOutcome (α : Type) where
  | value (a : α)
  | fatal (msg : String)
deriving DecidableEq, Repr

/-- `Config::get` (lines 79-81). -/
def Config.getGlobal (cell : Option Config) : GetOutcome Config :=
  match cell with
  | some c => GetOutcome.value c
  | none => GetOutcome.fatal "Config has not been initialized!"

/-- `Login::get` (lines 167-169). -/
def Login.getGlobal (cell : Option Login) : GetOutcome Login :=
  match cell with
  | some l => GetOutcome.value l
  | none => GetOutcome.fatal "Login has not been initialized!"

/-- The four expected key names scanned for textually in `Login::load`
(lines 202-207). -/
def expectedKeys : List String :=
  ["Username", "APIKey", "DownloadFavorites", "IgnoreBlacklistOnFavorites"]

/-- `Login::save_to_file` (lines 228-232): write the pretty JSON to
`login.json`.  Returns the result and the new login-file state. -/
def Login.save_to_file (l : Login) (fs : Option String) (io : IoBehavior) :
    Except Err Unit × Option String :=
  if io.loginWriteFails then (Except.error (Err.ioErr "Failed to write login.json"), fs)
  else (Except.ok (), some (to_string_pretty_login l))

/-- `Login::load` (lines 191-216): create-with-defaults when the file is
absent (via `create_login`, which only adds log output to `save_to_file`);
otherwise read, deserialize, and re-persist the parsed value when an
expected key is textually missing.  Returns the result and the new
login-file state. -/
def Login.load (fs : Option String) (io : IoBehavior) : Except Err Login × Option String :=
  match fs with
  | none =>
    let l := Login.defaultValue
    match Login.save_to_file l none io with
    | (Except.error e, fs2) => (Except.error e, fs2)
    | (Except.ok _, fs2) => (Except.ok l, fs2)
  | some content =>
    if io.loginReadFails then
      (Except.error (Err.ioErr "Failed to read login.json"), fs)
    else
      match from_str_login content with
      | none => (Except.error (Err.parseErr "Failed to parse login.json"), fs)
      | some login =>
        if expectedKeys.any (fun key => !(strContains content key)) then
          match Login.save_to_file login fs io with
          | (Except.error e, fs2) => (Except.error e, fs2)
          | (Except.ok _, fs2) => (Except.ok login, fs2)
        else
          (Except.ok login, fs)

/-- `Login::initialize` (lines 172-188): load; on any load error substitute
the full default after logging; then set the cell once, a second set
attempt yielding the lifecycle error. -/
def Login.initializeGlobal (w : World) (io : IoBehavior) : World × Except Err Unit :=
  let loaded := Login.load w.loginFile io
  let login : Login :=
    match loaded.1 with
    | Except.ok l => l
    | Except.error _ => Login.defaultValue
  let w2 : World := { w with loginFile := loaded.2 }
  match w2.loginCell with
  | some _ => (w2, Except.error (Err.lifecycleErr "Login has already been initialized!"))
  | none => ({ w2 with loginCell := some login }, Except.ok ())

/-- `Login::is_empty` (lines 219-225). -/
def Login.is_empty (l : Login) : Bool :=
  if l.username.isEmpty || l.api_key.isEmpty then true else false

/-- The observable outcome of a process-level action: either control comes
back to the caller, or the process terminates with an exit code.  Both
variants record the messages printed (log line, stdout line). -/
inductive ProcOutcome where
  | returned (printed : List String)
  | exited (code : Nat) (printed : List String)
deriving DecidableEq, Repr

/-- `emergency_exit` (lines 269-277): print the error and the prompt, block
on one line of standard input (a failed read is discarded by
`unwrap_or_default`), then `exit(0x00FF)`.  `stdinLine` is the outcome of
the blocking read: `none` models a read error, `some s` a read line. -/
def emergency_exit (error : String) (_stdinLine : Option String) : ProcOutcome :=
  ProcOutcome.exited 0x00FF [error, "Press ENTER to close the application..."]

/-! ### Printed login text, segmented member by member

`loginSeg1 u a df ib` is the character sequence of the printed login
object from the first member's opening quote to the end; `loginSeg2`-`4`
are its suffixes starting at the later members.  They exist so lemmas about
the scanner can walk the printed text one member at a time. -/

/-- Printed login text from the `IgnoreBlacklistOnFavorites` member on. -/
def loginSeg4 (ib : Bool) : List Char :=
  '"' :: ("IgnoreBlacklistOnFavorites".data ++ '"' :: ':' :: ' ' ::
    boolJson ib ('\n' :: '\x7d' :: []))

/-- Printed login text from the `DownloadFavorites` member on. -/
def loginSeg3 (df ib : Bool) : List Char :=
  '"' :: ("DownloadFavorites".data ++ '"' :: ':' :: ' ' ::
    boolJson df (',' :: '\n' :: ' ' :: ' ' :: loginSeg4 ib))

/-- Printed login text from the `APIKey` member on. -/
def loginSeg2 (a : String) (df ib : Bool) : List Char :=
  '"' :: ("APIKey".data ++ '"' :: ':' :: ' ' ::
    quoteJson a (',' :: '\n' :: ' ' :: ' ' :: loginSeg3 df ib))

/-- Printed login text from the `Username` member on. -/
def loginSeg1 (u a : String) (df ib : Bool) : List Char :=
  '"' :: ("Username".data ++ '"' :: ':' :: ' ' ::
    quoteJson u (',' :: '\n' :: ' ' :: ' ' :: loginSeg2 a df ib))

/-! ### Step equations for the recursive scanner functions -/

theorem skipWs_nil : skipWs [] = [] := by rw [skipWs.eq_def]

theorem skipWs_cons (c : Char) (cs : List Char) :
    skipWs (c :: cs) =
      if c = ' ' || c = '\n' || c = '\t' || c = '\r' then skipWs cs else c :: cs := by
  rw [skipWs.eq_def]

theorem scanString_nil : scanString [] = none := by rw [scanString.eq_def]

theorem scanString_cons (c : Char) (cs : List Char) :
    scanString (c :: cs) =
      if c = '"' then some ([], cs)
      else if c = '\\' then
        match cs with
        | [] => none
        | e :: cs2 =>
          match decodeEscape e with
          | none => none
          | some d =>
            match scanString cs2 with
            | none => none
            | some (content, rest) => some (d :: content, rest)
      else
        match scanString cs with
        | none => none
        | some (content, rest) => some (c :: content, rest) := by
  rw [scanString.eq_def]

theorem escapeList_nil : escapeList [] = [] := by rw [escapeList.eq_def]

theorem escapeList_cons (c : Char) (cs : List Char) :
    escapeList (c :: cs) = escapeChar c ++ escapeList cs := by rw [escapeList.eq_def]

theorem parseMembersAux_succ (fuel : Nat) (l : List Char) :
    parseMembersAux (fuel + 1) l =
      match parseMember l with
      | none => none
      | some (kv, rest) =>
        match skipWs rest with
        | [] => none
        | c :: rest2 =>
          if c = ',' then
            match parseMembersAux fuel rest2 with
            | some (kvs, rest3) => some (kv :: kvs, rest3)
            | none => none
          else if c = '\x7d' then some ([kv], rest2)
          else none := by
  rw [parseMembersAux.eq_def]

theorem lookupField_nil (key : String) : lookupField [] key = none := by
  rw [lookupField.eq_def]

theorem lookupField_cons (k : String) (v : JValue) (rest : List (String × JValue))
    (key : String) :
    lookupField ((k, v) :: rest) key = if k = key then some v else lookupField rest key := by
  rw [lookupField.eq_def]

theorem startsWith_nil (hay : List Char) : startsWith [] hay = true := by
  rw [startsWith.eq_def]

theorem occursIn_cons (c : Char) (t needle : List Char) :
    occursIn (c :: t) needle = (startsWith needle (c :: t) || occursIn t needle) := by
  rw [occursIn.eq_def]

/-! ### Scanning a printed string literal recovers the original characters -/

/-- The string scanner undoes the escaping the printer applies. -/
theorem scan_escape (s : List Char) : ∀ rest : List Char,
    scanString (escapeList s ++ '"' :: rest) = some (s, rest) := by
  induction s with
  | nil =>
    intro rest
    simp [escapeList_nil, scanString_cons]
  | cons c cs ih =>
    intro rest
    by_cases h1 : c = '"'
    · subst h1
      simp [escapeList_cons, escapeChar, scanString_cons, decodeEscape, ih]
    · by_cases h2 : c = '\\'
      · subst h2
        simp [escapeList_cons, escapeChar, scanString_cons, decodeEscape, ih]
      · simp [escapeList_cons, escapeChar, h1, h2, scanString_cons, ih]

/-- Structure eta for strings. -/
theorem mk_data (s : String) : String.mk s.data = s := rfl

/-- Scanning a printed string value. -/
theorem parseValue_jstr (s : String) (rest : List Char) :
    parseValue ('"' :: (escapeList s.data ++ '"' :: rest)) =
      some (JValue.jstr s, rest) := by
  simp [parseValue, scan_escape, mk_data]

/-- Scanning a printed boolean value. -/
theorem parseValue_jbool (b : Bool) (rest : List Char) :
    parseValue (boolJson b rest) = some (JValue.jbool b, rest) := by
  cases b <;> simp [boolJson, parseValue]

/-- A leading whitespace character does not change the scanned member. -/
theorem parseMember_ws (c : Char) (l : List Char)
    (hc : (c = ' ' || c = '\n' || c = '\t' || c = '\r') = true) :
    parseMember (c :: l) = parseMember l := by
  simp only [parseMember, skipWs_cons, hc, if_true]

/-- Whitespace skipping stops at a printed boolean. -/
theorem skipWs_boolJson (b : Bool) (rest : List Char) :
    skipWs (boolJson b rest) = boolJson b rest := by
  cases b <;> simp [boolJson, skipWs_cons]

/-- Scanning a printed string-valued member. -/
theorem parseMember_strVal (k : List Char) (hkey : escapeList k = k) (s : String)
    (rest : List Char) :
    parseMember ('"' :: (k ++ '"' :: ':' :: ' ' :: quoteJson s rest)) =
      some ((String.mk k, JValue.jstr s), rest) := by
  have hscan := scan_escape k (':' :: ' ' :: quoteJson s rest)
  rw [hkey] at hscan
  simp only [quoteJson] at hscan ⊢
  simp [parseMember, skipWs_cons, hscan, parseValue_jstr]

/-- Scanning a printed boolean-valued member. -/
theorem parseMember_boolVal (k : List Char) (hkey : escapeList k = k) (b : Bool)
    (rest : List Char) :
    parseMember ('"' :: (k ++ '"' :: ':' :: ' ' :: boolJson b rest)) =
      some ((String.mk k, JValue.jbool b), rest) := by
  have hscan := scan_escape k (':' :: ' ' :: boolJson b rest)
  rw [hkey] at hscan
  simp [parseMember, skipWs_cons, hscan, skipWs_boolJson, parseValue_jbool]

/-- Member-list step: a member followed by a comma and more members. -/
theorem membersAux_cons (fuel : Nat) (l : List Char) (kv : String × JValue)
    (rest rest2 : List Char) (kvs : List (String × JValue)) (r : List Char)
    (h1 : parseMember l = some (kv, rest))
    (h2 : skipWs rest = ',' :: rest2)
    (h3 : parseMembersAux fuel rest2 = some (kvs, r)) :
    parseMembersAux (fuel + 1) l = some (kv :: kvs, r) := by
  rw [parseMembersAux_succ]
  simp [h1, h2, h3]

/-- Member-list step: the last member, followed by the closing brace. -/
theorem membersAux_last (fuel : Nat) (l : List Char) (kv : String × JValue)
    (rest rest2 : List Char)
    (h1 : parseMember l = some (kv, rest))
    (h2 : skipWs rest = '\x7d' :: rest2) :
    parseMembersAux (fuel + 1) l = some ([kv], rest2) := by
  rw [parseMembersAux_succ]
  simp [h1, h2]

/-! ### Scanning the printed login text, member by member -/

/-- Scanning the printed login text from member 4 on. -/
theorem parse_seg4 (ib : Bool) (n : Nat) (hn : 1 ≤ n) :
    parseMembersAux n ('\n' :: ' ' :: ' ' :: loginSeg4 ib) =
      some ([("IgnoreBlacklistOnFavorites", JValue.jbool ib)], []) := by
  obtain ⟨m, rfl⟩ : ∃ m, n = m + 1 := ⟨n - 1, by omega⟩
  have hm : parseMember ('\n' :: ' ' :: ' ' :: loginSeg4 ib) =
      some (("IgnoreBlacklistOnFavorites", JValue.jbool ib), '\n' :: '\x7d' :: []) := by
    rw [parseMember_ws '\n' _ (by decide), parseMember_ws ' ' _ (by decide),
      parseMember_ws ' ' _ (by decide)]
    simpa [loginSeg4, mk_data] using
      parseMember_boolVal "IgnoreBlacklistOnFavorites".data (by decide) ib
        ('\n' :: '\x7d' :: [])
  exact membersAux_last m _ _ _ _ hm (by decide)

/-- Scanning the printed login text from member 3 on. -/
theorem parse_seg3 (df ib : Bool) (n : Nat) (hn : 2 ≤ n) :
    parseMembersAux n ('\n' :: ' ' :: ' ' :: loginSeg3 df ib) =
      some ([("DownloadFavorites", JValue.jbool df),
        ("IgnoreBlacklistOnFavorites", JValue.jbool ib)], []) := by
  obtain ⟨m, rfl⟩ : ∃ m, n = (m + 1) + 1 := ⟨n - 2, by omega⟩
  have hm : parseMember ('\n' :: ' ' :: ' ' :: loginSeg3 df ib) =
      some (("DownloadFavorites", JValue.jbool df),
        ',' :: '\n' :: ' ' :: ' ' :: loginSeg4 ib) := by
    rw [parseMember_ws '\n' _ (by decide), parseMember_ws ' ' _ (by decide),
      parseMember_ws ' ' _ (by decide)]
    simpa [loginSeg3, mk_data] using
      parseMember_boolVal "DownloadFavorites".data (by decide) df
        (',' :: '\n' :: ' ' :: ' ' :: loginSeg4 ib)
  have h2 : skipWs (',' :: '\n' :: ' ' :: ' ' :: loginSeg4 ib) =
      ',' :: ('\n' :: ' ' :: ' ' :: loginSeg4 ib) := by
    simp [skipWs_cons]
  exact membersAux_cons (m + 1) _ _ _ _ _ _ hm h2 (parse_seg4 ib (m + 1) (by omega))

/-- Scanning the printed login text from member 2 on. -/
theorem parse_seg2 (a : String) (df ib : Bool) (n : Nat) (hn : 3 ≤ n) :
    parseMembersAux n ('\n' :: ' ' :: ' ' :: loginSeg2 a df ib) =
      some ([("APIKey", JValue.jstr a), ("DownloadFavorites", JValue.jbool df),
        ("IgnoreBlacklistOnFavorites", JValue.jbool ib)], []) := by
  obtain ⟨m, rfl⟩ : ∃ m, n = (m + 2) + 1 := ⟨n - 3, by omega⟩
  have hm : parseMember ('\n' :: ' ' :: ' ' :: loginSeg2 a df ib) =
      some (("APIKey", JValue.jstr a), ',' :: '\n' :: ' ' :: ' ' :: loginSeg3 df ib) := by
    rw [parseMember_ws '\n' _ (by decide), parseMember_ws ' ' _ (by decide),
      parseMember_ws ' ' _ (by decide)]
    simpa [loginSeg2, mk_data] using
      parseMember_strVal "APIKey".data (by decide) a
        (',' :: '\n' :: ' ' :: ' ' :: loginSeg3 df ib)
  have h2 : skipWs (',' :: '\n' :: ' ' :: ' ' :: loginSeg3 df ib) =
      ',' :: ('\n' :: ' ' :: ' ' :: loginSeg3 df ib) := by
    simp [skipWs_cons]
  exact membersAux_cons (m + 2) _ _ _ _ _ _ hm h2 (parse_seg3 df ib (m + 2) (by omega))

/-- Scanning the printed login text from the first member on.  The input is
`loginSeg1` with its head definitionally exposed, the form in which it
appears while scanning the whole object. -/
theorem parse_seg1 (u a : String) (df ib : Bool) (n : Nat) (hn : 4 ≤ n) :
    parseMembersAux n
      ('"' :: ("Username".data ++ '"' :: ':' :: ' ' ::
        quoteJson u (',' :: '\n' :: ' ' :: ' ' :: loginSeg2 a df ib))) =
      some ([("Username", JValue.jstr u), ("APIKey", JValue.jstr a),
        ("DownloadFavorites", JValue.jbool df),
        ("IgnoreBlacklistOnFavorites", JValue.jbool ib)], []) := by
  obtain ⟨m, rfl⟩ : ∃ m, n = (m + 3) + 1 := ⟨n - 4, by omega⟩
  have hm : parseMember ('"' :: ("Username".data ++ '"' :: ':' :: ' ' ::
      quoteJson u (',' :: '\n' :: ' ' :: ' ' :: loginSeg2 a df ib))) =
      some (("Username", JValue.jstr u), ',' :: '\n' :: ' ' :: ' ' :: loginSeg2 a df ib) := by
    simpa [mk_data] using
      parseMember_strVal "Username".data (by decide) u
        (',' :: '\n' :: ' ' :: ' ' :: loginSeg2 a df ib)
  have h2 : skipWs (',' :: '\n' :: ' ' :: ' ' :: loginSeg2 a df ib) =
      ',' :: ('\n' :: ' ' :: ' ' :: loginSeg2 a df ib) := by
    simp [skipWs_cons]
  have hrest := parse_seg2 a df ib (m + 3) (by omega)
  exact membersAux_cons (m + 3) _ _ _ _ _ _ hm h2 hrest

/-- An object document whose member list scans completely is parsed into
those members. -/
theorem parseObject_members (s : String) (c2 : Char) (rest rest2 : List Char)
    (kvs : List (String × JValue))
    (h1 : skipWs s.data = '\x7b' :: rest)
    (h2 : skipWs rest = c2 :: rest2)
    (h3 : ¬(c2 = '\x7d'))
    (h4 : parseMembersAux ((c2 :: rest2).length + 1) (c2 :: rest2) = some (kvs, [])) :
    parseObject s = some kvs := by
  simp only [List.length_cons] at h4
  simp [parseObject, h1, h2, h3, h4, skipWs_nil]

/-- The characters of the printed login text, with the leading skeleton
exposed and the tail segmented by member. -/
theorem pretty_login_data (u a : String) (df ib : Bool) :
    (to_string_pretty_login ⟨u, a, df, ib⟩).data =
      '\x7b' :: '\n' :: ' ' :: ' ' ::
        '"' :: ("Username".data ++ '"' :: ':' :: ' ' ::
          quoteJson u (',' :: '\n' :: ' ' :: ' ' :: loginSeg2 a df ib)) := by
  simp [to_string_pretty_login, loginSeg2, loginSeg3, loginSeg4, quoteJson]

/-- Scanning the whole printed login object recovers the four members. -/
theorem parse_pretty_login (l : Login) :
    parseObject (to_string_pretty_login l) =
      some [("Username", JValue.jstr l.username), ("APIKey", JValue.jstr l.api_key),
        ("DownloadFavorites", JValue.jbool l.download_favorites),
        ("IgnoreBlacklistOnFavorites", JValue.jbool l.ignore_blacklist_on_favorites)] := by
  obtain ⟨u, a, df, ib⟩ := l
  have hdata := pretty_login_data u a df ib
  have h1 : skipWs (to_string_pretty_login ⟨u, a, df, ib⟩).data =
      '\x7b' :: ('\n' :: ' ' :: ' ' ::
        '"' :: ("Username".data ++ '"' :: ':' :: ' ' ::
          quoteJson u (',' :: '\n' :: ' ' :: ' ' :: loginSeg2 a df ib))) := by
    rw [hdata]
    simp [skipWs_cons]
  have h2 : skipWs ('\n' :: ' ' :: ' ' ::
      '"' :: ("Username".data ++ '"' :: ':' :: ' ' ::
        quoteJson u (',' :: '\n' :: ' ' :: ' ' :: loginSeg2 a df ib))) =
      '"' :: ("Username".data ++ '"' :: ':' :: ' ' ::
        quoteJson u (',' :: '\n' :: ' ' :: ' ' :: loginSeg2 a df ib)) := by
    simp [skipWs_cons]
  have h4 := parse_seg1 u a df ib
    (('"' :: ("Username".data ++ '"' :: ':' :: ' ' ::
      quoteJson u (',' :: '\n' :: ' ' :: ' ' :: loginSeg2 a df ib))).length + 1)
    (by simp only [List.length_cons, List.length_append]; omega)
  exact parseObject_members _ _ _ _ _ h1 h2 (by decide) h4

/-- Round trip: deserializing a pretty-printed `Login` gives it back. -/
theorem from_str_pretty_login (l : Login) :
    from_str_login (to_string_pretty_login l) = some l := by
  obtain ⟨u, a, df, ib⟩ := l
  simp [from_str_login, parse_pretty_login, getStringField, getBoolField,
    lookupField_cons, lookupField_nil]

/-! ### Substring facts about the printed login text -/

/-- A match at the head of the haystack is an occurrence. -/
theorem occursIn_of_startsWith (l n : List Char) (h : startsWith n l = true) :
    occursIn l n = true := by
  cases l with
  | nil =>
    cases n with
    | nil => rw [occursIn.eq_def]; rfl
    | cons c cs => rw [startsWith.eq_def] at h; exact absurd h (by simp)
  | cons c t => simp [occursIn_cons, h]

/-- A haystack starts with itself followed by anything. -/
theorem startsWith_append (n y : List Char) : startsWith n (n ++ y) = true := by
  induction n with
  | nil => exact startsWith_nil ([] ++ y)
  | cons c cs ih =>
    rw [startsWith.eq_def]
    simp [ih]

/-- Occurrences survive consing a character in front. -/
theorem occursIn_cons_right (c : Char) (t n : List Char) (h : occursIn t n = true) :
    occursIn (c :: t) n = true := by
  simp [occursIn_cons, h]

/-- Occurrences survive prepending any list. -/
theorem occursIn_append_right (x y n : List Char) (h : occursIn y n = true) :
    occursIn (x ++ y) n = true := by
  induction x with
  | nil => simpa using h
  | cons c cs ih => simpa using occursIn_cons_right c (cs ++ y) n ih

/-- A needle occurs at the front of `needle ++ rest`. -/
theorem occursIn_self_append (n y : List Char) : occursIn (n ++ y) n = true :=
  occursIn_of_startsWith (n ++ y) n (startsWith_append n y)

/-- Occurrences survive prepending a printed boolean. -/
theorem occursIn_boolJson (b : Bool) (rest n : List Char) (h : occursIn rest n = true) :
    occursIn (boolJson b rest) n = true := by
  cases b <;> simp only [boolJson] <;>
    (apply occursIn_cons_right; apply occursIn_cons_right; apply occursIn_cons_right;
     apply occursIn_cons_right; try apply occursIn_cons_right) <;> exact h

/-- Every expected key name occurs textually in the printed login text. -/
theorem keys_in_pretty_login (l : Login) :
    ∀ key ∈ expectedKeys, strContains (to_string_pretty_login l) key = true := by
  obtain ⟨u, a, df, ib⟩ := l
  intro key hk
  have hdata := pretty_login_data u a df ib
  simp only [expectedKeys, List.mem_cons, List.not_mem_nil, or_false] at hk
  rcases hk with h | h | h | h <;> subst h <;>
    (simp only [strContains, hdata, loginSeg2, loginSeg3, loginSeg4, quoteJson];
     repeat first
       | exact occursIn_self_append _ _
       | apply occursIn_boolJson
       | apply occursIn_cons_right
       | apply occursIn_append_right)

/-- A string occurs in any surrounding context. -/
theorem strContains_middle (p s q : String) : strContains (p ++ s ++ q) s = true := by
  simp only [strContains, String.data_append]
  rw [List.append_assoc]
  exact occursIn_append_right _ _ _ (occursIn_self_append _ _)

/-- A textually missing expected key makes the repair scan fire. -/
theorem any_missing (content : String)
    (hmiss : ∃ key ∈ expectedKeys, strContains content key = false) :
    (expectedKeys.any fun key => !(strContains content key)) = true := by
  obtain ⟨k, hk, hfalse⟩ := hmiss
  simp only [List.any_eq_true]
  exact ⟨k, hk, by simp [hfalse]⟩

/-! ### Claim theorems -/

/-- C4: when the login file is absent, `Login::load` constructs the default
`Login` (empty username, empty api key, both flags true), writes it to the
file as pretty-printed JSON and returns it; a subsequent `load` on the
resulting file returns the same values. -/
theorem login_load_absent_creates_default :
    Login.defaultValue =
      { username := "", api_key := "", download_favorites := true,
        ignore_blacklist_on_favorites := true } ∧
    Login.load none ioOk =
      (Except.ok Login.defaultValue, some (to_string_pretty_login Login.defaultValue)) ∧
    Login.load (some (to_string_pretty_login Login.defaultValue)) ioOk =
      (Except.ok Login.defaultValue, some (to_string_pretty_login Login.defaultValue)) := by
  refine ⟨rfl, by decide, by decide⟩

/-- C5: for every parseable login file missing some expected field name
textually, `Login::load` rewrites the file; afterwards every expected field
name is textually present and every field of the parsed login keeps its
value (re-reading the rewritten file parses back the very same login). -/
theorem login_load_self_heals (content : String) (l : Login) (io : IoBehavior)
    (hparse : from_str_login content = some l)
    (hread : io.loginReadFails = false)
    (hwrite : io.loginWriteFails = false)
    (hmiss : ∃ key ∈ expectedKeys, strContains content key = false) :
    Login.load (some content) io = (Except.ok l, some (to_string_pretty_login l)) ∧
    (∀ key ∈ expectedKeys, strContains (to_string_pretty_login l) key = true) ∧
    from_str_login (to_string_pretty_login l) = some l := by
  refine ⟨?_, keys_in_pretty_login l, from_str_pretty_login l⟩
  simp [Login.load, hread, hparse, any_missing content hmiss, Login.save_to_file, hwrite]

/-- Witness for C5 at a concrete login file missing three keys. -/
theorem login_load_self_heals_witness :
    Login.load (some "\x7b\"Username\": \"me\"\x7d") ioOk =
      (Except.ok (Login.mk "me" "" true true),
        some (to_string_pretty_login (Login.mk "me" "" true true))) ∧
    (∀ key ∈ expectedKeys,
      strContains (to_string_pretty_login (Login.mk "me" "" true true)) key = true) ∧
    from_str_login (to_string_pretty_login (Login.mk "me" "" true true)) =
      some (Login.mk "me" "" true true) :=
  login_load_self_heals "\x7b\"Username\": \"me\"\x7d" (Login.mk "me" "" true true) ioOk
    (by decide) rfl rfl ⟨"APIKey", by decide, by decide⟩

/-- C6: `Login::is_empty` is true exactly when the username or the api key
is the empty string; in particular it is true on the default login and
false exactly when both fields are non-empty. -/
theorem is_empty_characterization (l : Login) :
    (l.is_empty = true ↔ (l.username = "" ∨ l.api_key = "")) ∧
    Login.is_empty Login.defaultValue = true ∧
    (l.is_empty = false ↔ (l.username ≠ "" ∧ l.api_key ≠ "")) := by
  obtain ⟨u, a, df, ib⟩ := l
  refine ⟨?_, by decide, ?_⟩ <;>
    simp [Login.is_empty, String.isEmpty_iff]

/-- C7: the pretty-printed default `Config` (directory `downloads/`,
convention `md5`), exactly as `create_config` writes it, loads back through
`load_config` as the default `Config`. -/
theorem config_default_roundtrip :
    Config.defaultValue =
      { download_directory := "downloads/", naming_convention := "md5" } ∧
    Config.create_config none ioOk =
      (Except.ok (), some (to_string_pretty_config Config.defaultValue)) ∧
    Config.load_config (some (to_string_pretty_config Config.defaultValue)) ioOk =
      Except.ok Config.defaultValue := by
  refine ⟨rfl, by decide, by decide⟩

/-- C8: `emergency_exit` prints the error and the prompt and terminates the
process with exit code `0x00FF`, a fixed non-zero status, whatever line (or
read failure) the blocking stdin read produced; it never returns control to
the caller. -/
theorem emergency_exit_always_exits (msg : String) (stdin : Option String) :
    emergency_exit msg stdin =
      ProcOutcome.exited 0x00FF [msg, "Press ENTER to close the application..."] ∧
    (0x00FF : Nat) ≠ 0 ∧
    (∀ printed, emergency_exit msg stdin ≠ ProcOutcome.returned printed) := by
  refine ⟨rfl, by decide, ?_⟩
  intro printed h
  exact ProcOutcome.noConfusion h

/-- C1: `load_config` lowercases the parsed naming convention; it succeeds
with the lowercase form when that form is `md5` or `id`, fails with a
validation error naming the lowercased string otherwise, and never returns
a config whose convention is outside the enumerated set. -/
theorem load_config_validates_convention :
    (∀ s c, from_str_config s = some c →
      (toLowerStr c.naming_convention = "md5" ∨ toLowerStr c.naming_convention = "id") →
      Config.load_config (some s) ioOk =
        Except.ok (Config.mk c.download_directory (toLowerStr c.naming_convention))) ∧
    (∀ s c, from_str_config s = some c →
      ¬(toLowerStr c.naming_convention = "md5") →
      ¬(toLowerStr c.naming_convention = "id") →
      Config.load_config (some s) ioOk =
        Except.error (Err.validationErr
          ("Invalid naming convention: " ++ toLowerStr c.naming_convention ++
            ". Must be one of: [\"md5\", \"id\"]")) ∧
      strContains
        ("Invalid naming convention: " ++ toLowerStr c.naming_convention ++
          ". Must be one of: [\"md5\", \"id\"]") (toLowerStr c.naming_convention) = true) ∧
    (∀ fs io c, Config.load_config fs io = Except.ok c →
      (c.naming_convention = "md5" ∨ c.naming_convention = "id")) := by
  refine ⟨?_, ?_, ?_⟩
  · intro s c hp hcv
    rcases hcv with h | h <;> simp [Config.load_config, ioOk, hp, h]
  · intro s c hp h5 h6
    refine ⟨?_, strContains_middle "Invalid naming convention: " _ _⟩
    simp [Config.load_config, ioOk, hp, h5, h6]
  · intro fs io c h
    obtain ⟨cr, cw, lr, lw⟩ := io
    rcases fs with _ | s
    · simp [Config.load_config] at h
    · cases cr
      · rcases hp : from_str_config s with _ | c0
        · simp [Config.load_config, hp] at h
        · by_cases h5 : toLowerStr c0.naming_convention = "md5"
          · simp [Config.load_config, hp, h5] at h
            subst h
            simp [h5]
          · by_cases h6 : toLowerStr c0.naming_convention = "id"
            · simp [Config.load_config, hp, h5, h6] at h
              subst h
              simp [h6]
            · simp [Config.load_config, hp, h5, h6] at h
      · simp [Config.load_config] at h

/-- Witness for C1: the spec's two scenarios, `MD5` normalizing to `md5`
and `sha256` rejected with a validation error naming `sha256`. -/
theorem load_config_validates_convention_witness :
    Config.load_config
        (some "\x7b\"downloadDirectory\": \"out/\", \"fileNamingConvention\": \"MD5\"\x7d")
        ioOk = Except.ok (Config.mk "out/" "md5") ∧
    Config.load_config
        (some "\x7b\"downloadDirectory\": \"out/\", \"fileNamingConvention\": \"sha256\"\x7d")
        ioOk =
      Except.error (Err.validationErr
        ("Invalid naming convention: " ++ "sha256" ++
          ". Must be one of: [\"md5\", \"id\"]")) := by
  constructor
  · have h := load_config_validates_convention.1
      "\x7b\"downloadDirectory\": \"out/\", \"fileNamingConvention\": \"MD5\"\x7d"
      (Config.mk "out/" "MD5") (by decide) (by decide)
    simpa using h
  · have h := (load_config_validates_convention.2.1
      "\x7b\"downloadDirectory\": \"out/\", \"fileNamingConvention\": \"sha256\"\x7d"
      (Config.mk "out/" "sha256") (by decide) (by decide) (by decide)).1
    simpa using h

/-- C2: the first `Login::initialize` call returns `Ok` whatever
`Login::load` did; a load failure is replaced by storing the full default
login, a load success stores the loaded login, and the only error a call
can ever return is the double-initialize lifecycle error. -/
theorem login_initialize_swallows_load_errors (w : World) (io : IoBehavior) :
    (w.loginCell = none →
      ((Login.initializeGlobal w io).2 = Except.ok () ∧
       (∀ e fs2, Login.load w.loginFile io = (Except.error e, fs2) →
         (Login.initializeGlobal w io).1.loginCell = some Login.defaultValue) ∧
       (∀ l fs2, Login.load w.loginFile io = (Except.ok l, fs2) →
         (Login.initializeGlobal w io).1.loginCell = some l))) ∧
    (∀ e, (Login.initializeGlobal w io).2 = Except.error e →
      e = Err.lifecycleErr "Login has already been initialized!" ∧ w.loginCell ≠ none) := by
  obtain ⟨cf, lf, cc, lc⟩ := w
  rcases hload : Login.load lf io with ⟨res, fs2⟩
  constructor
  · intro hn
    simp only [] at hn
    subst hn
    refine ⟨?_, ?_, ?_⟩
    · cases res <;> simp [Login.initializeGlobal, hload]
    · intro e fs3 h
      injection h with h1 h2
      subst h1
      simp [Login.initializeGlobal, hload]
    · intro l fs3 h
      injection h with h1 h2
      subst h1
      simp [Login.initializeGlobal, hload]
  · intro e he
    rcases lc with _ | l0
    · cases res <;> simp [Login.initializeGlobal, hload] at he
    · cases res <;> simp [Login.initializeGlobal, hload] at he <;> simp [he]

/-- Witness for C2 at a concrete world with an unreadable login file. -/
theorem login_initialize_swallows_load_errors_witness :
    (Login.initializeGlobal (World.mk none (some "garbage") none none)
        ioOk).2 = Except.ok () ∧
    (Login.initializeGlobal (World.mk none (some "garbage") none none)
        ioOk).1.loginCell = some Login.defaultValue := by
  have h := (login_initialize_swallows_load_errors
    (World.mk none (some "garbage") none none) ioOk).1 rfl
  exact ⟨h.1, h.2.1 (Err.parseErr "Failed to parse login.json") (some "garbage") (by decide)⟩

/-- C3 counterexample: with the config cell already initialized but the
config file meanwhile deleted, a second `Config::initialize` call returns
the load I/O error, not the "already initialized" lifecycle error the claim
promises for every further call. -/
theorem double_init_counterexample :
    (Config.initializeGlobal (World.mk none none (some Config.defaultValue) none)
        ioOk).2 = Except.error (Err.ioErr "Failed to read config file: config.json") ∧
    ¬((Config.initializeGlobal (World.mk none none (some Config.defaultValue) none)
        ioOk).2 =
      Except.error (Err.lifecycleErr "Config has already been initialized!")) := by
  decide

/-- C3 (amended): once a store is initialized, a further `initialize` call
never succeeds and leaves the stored value unchanged.  For `Config` the
error is the "already initialized" lifecycle error whenever `load_config`
succeeds (a failing load surfaces that load error instead, since the load
runs first); for `Login` every further call returns the lifecycle error. -/
theorem double_init_rejected (w : World) (io : IoBehavior) :
    (∀ c, w.configCell = some c →
      ((Config.initializeGlobal w io).1.configCell = some c ∧
       (Config.initializeGlobal w io).2 ≠ Except.ok () ∧
       (∀ c2, Config.load_config w.configFile io = Except.ok c2 →
         (Config.initializeGlobal w io).2 =
           Except.error (Err.lifecycleErr "Config has already been initialized!")))) ∧
    (∀ l, w.loginCell = some l →
      ((Login.initializeGlobal w io).1.loginCell = some l ∧
       (Login.initializeGlobal w io).2 =
         Except.error (Err.lifecycleErr "Login has already been initialized!"))) := by
  obtain ⟨cf, lf, cc, lc⟩ := w
  constructor
  · intro c hc
    simp only [] at hc
    subst hc
    rcases hl : Config.load_config cf io with e | c2
    · refine ⟨by simp [Config.initializeGlobal, hl], by simp [Config.initializeGlobal, hl], ?_⟩
      intro c3 h3
      exact Except.noConfusion h3
    · exact ⟨by simp [Config.initializeGlobal, hl], by simp [Config.initializeGlobal, hl],
        fun c3 h3 => by simp [Config.initializeGlobal, hl]⟩
  · intro l hl0
    simp only [] at hl0
    subst hl0
    rcases hload : Login.load lf io with ⟨res, fs2⟩
    cases res <;> simp [Login.initializeGlobal, hload]

/-- Witness for the amended C3 at a fully initialized world with both files
present and valid. -/
theorem double_init_rejected_witness :
    (Config.initializeGlobal
        (World.mk (some (to_string_pretty_config Config.defaultValue))
          (some (to_string_pretty_login Login.defaultValue))
          (some Config.defaultValue) (some Login.defaultValue)) ioOk).1.configCell =
      some Config.defaultValue ∧
    (Config.initializeGlobal
        (World.mk (some (to_string_pretty_config Config.defaultValue))
          (some (to_string_pretty_login Login.defaultValue))
          (some Config.defaultValue) (some Login.defaultValue)) ioOk).2 =
      Except.error (Err.lifecycleErr "Config has already been initialized!") ∧
    (Login.initializeGlobal
        (World.mk (some (to_string_pretty_config Config.defaultValue))
          (some (to_string_pretty_login Login.defaultValue))
          (some Config.defaultValue) (some Login.defaultValue)) ioOk).1.loginCell =
      some Login.defaultValue ∧
    (Login.initializeGlobal
        (World.mk (some (to_string_pretty_config Config.defaultValue))
          (some (to_string_pretty_login Login.defaultValue))
          (some Config.defaultValue) (some Login.defaultValue)) ioOk).2 =
      Except.error (Err.lifecycleErr "Login has already been initialized!") := by
  have h := double_init_rejected
    (World.mk (some (to_string_pretty_config Config.defaultValue))
      (some (to_string_pretty_login Login.defaultValue))
      (some Config.defaultValue) (some Login.defaultValue)) ioOk
  have hc := h.1 Config.defaultValue rfl
  have hl := h.2 Login.defaultValue rfl
  exact ⟨hc.1, hc.2.2 Config.defaultValue (by decide), hl.1, hl.2⟩

/-- C9: after a successful `initialize`, `get` returns the stored singleton
value and its abort branch is unreachable; before initialization `get` is
the fatal `expect` panic, not a recoverable result. -/
theorem get_contract :
    (∀ w io w2, Config.initializeGlobal w io = (w2, Except.ok ()) →
      ∃ c, w2.configCell = some c ∧
        Config.getGlobal w2.configCell = GetOutcome.value c ∧
        ∀ m, ¬(Config.getGlobal w2.configCell = GetOutcome.fatal m)) ∧
    Config.getGlobal none = GetOutcome.fatal "Config has not been initialized!" ∧
    (∀ w io w2, Login.initializeGlobal w io = (w2, Except.ok ()) →
      ∃ l, w2.loginCell = some l ∧
        Login.getGlobal w2.loginCell = GetOutcome.value l ∧
        ∀ m, ¬(Login.getGlobal w2.loginCell = GetOutcome.fatal m)) ∧
    Login.getGlobal none = GetOutcome.fatal "Login has not been initialized!" := by
  refine ⟨?_, rfl, ?_, rfl⟩
  · intro w io w2 h
    obtain ⟨cf, lf, cc, lc⟩ := w
    rcases hl : Config.load_config cf io with e | c2
    · simp [Config.initializeGlobal, hl] at h
    · rcases cc with _ | c0
      · simp only [Config.initializeGlobal, hl] at h
        injection h with hw _
        subst hw
        exact ⟨c2, rfl, rfl, fun m hm => GetOutcome.noConfusion hm⟩
      · simp [Config.initializeGlobal, hl] at h
  · intro w io w2 h
    obtain ⟨cf, lf, cc, lc⟩ := w
    rcases hload : Login.load lf io with ⟨res, fs2⟩
    rcases lc with _ | l0
    · simp only [Login.initializeGlobal, hload] at h
      injection h with hw _
      subst hw
      rcases res with e | l1
      · exact ⟨Login.defaultValue, rfl, rfl, fun m hm => GetOutcome.noConfusion hm⟩
      · exact ⟨l1, rfl, rfl, fun m hm => GetOutcome.noConfusion hm⟩
    · cases res <;> simp [Login.initializeGlobal, hload] at h

/-- Witness for C9: concrete successful initializations of both stores,
and `get` reading back the stored values. -/
theorem get_contract_witness :
    (∃ c, (World.mk (some (to_string_pretty_config Config.defaultValue)) none
        (some Config.defaultValue) none).configCell = some c ∧
      Config.getGlobal (World.mk (some (to_string_pretty_config Config.defaultValue)) none
        (some Config.defaultValue) none).configCell = GetOutcome.value c ∧
      ∀ m, ¬(Config.getGlobal (World.mk (some (to_string_pretty_config Config.defaultValue))
        none (some Config.defaultValue) none).configCell = GetOutcome.fatal m)) ∧
    (∃ l, (World.mk none (some (to_string_pretty_login Login.defaultValue)) none
        (some Login.defaultValue)).loginCell = some l ∧
      Login.getGlobal (World.mk none (some (to_string_pretty_login Login.defaultValue)) none
        (some Login.defaultValue)).loginCell = GetOutcome.value l ∧
      ∀ m, ¬(Login.getGlobal (World.mk none (some (to_string_pretty_login Login.defaultValue))
        none (some Login.defaultValue)).loginCell = GetOutcome.fatal m)) :=
  ⟨get_contract.1
      (World.mk (some (to_string_pretty_config Config.defaultValue)) none none none) ioOk
      (World.mk (some (to_string_pretty_config Config.defaultValue)) none
        (some Config.defaultValue) none) (by decide),
    get_contract.2.2.1
      (World.mk none none none none) ioOk
      (World.mk none (some (to_string_pretty_login Login.defaultValue)) none
        (some Login.defaultValue)) (by decide)⟩

/-- C10: when the login file parses but an expected key is textually absent
and the self-healing rewrite fails with an I/O error, `Login::load` returns
that error (discarding the parsed login) with the file unchanged, so
`Login::initialize` stores the full default login in the cell. -/
theorem login_load_write_error (content : String) (l : Login) (io : IoBehavior)
    (hparse : from_str_login content = some l)
    (hread : io.loginReadFails = false)
    (hwrite : io.loginWriteFails = true)
    (hmiss : ∃ key ∈ expectedKeys, strContains content key = false) :
    Login.load (some content) io =
      (Except.error (Err.ioErr "Failed to write login.json"), some content) ∧
    (∀ w, w.loginFile = some content → w.loginCell = none →
      Login.initializeGlobal w io =
        ({ w with loginCell := some Login.defaultValue }, Except.ok ())) := by
  have hload : Login.load (some content) io =
      (Except.error (Err.ioErr "Failed to write login.json"), some content) := by
    simp [Login.load, hread, hparse, any_missing content hmiss, Login.save_to_file, hwrite]
  refine ⟨hload, ?_⟩
  intro w hwf hwc
  obtain ⟨cf, lf, cc, lc⟩ := w
  simp only [] at hwf hwc
  subst hwf
  subst hwc
  simp [Login.initializeGlobal, hload]

/-- Witness for C10 at a concrete partial login file and failing writes. -/
theorem login_load_write_error_witness :
    Login.load (some "\x7b\"Username\": \"me\"\x7d") (IoBehavior.mk false false false true) =
      (Except.error (Err.ioErr "Failed to write login.json"),
        some "\x7b\"Username\": \"me\"\x7d") ∧
    Login.initializeGlobal
        (World.mk none (some "\x7b\"Username\": \"me\"\x7d") none none)
        (IoBehavior.mk false false false true) =
      (World.mk none (some "\x7b\"Username\": \"me\"\x7d") none (some Login.defaultValue),
        Except.ok ()) := by
  have h := login_load_write_error "\x7b\"Username\": \"me\"\x7d" (Login.mk "me" "" true true)
    (IoBehavior.mk false false false true) (by decide) rfl rfl ⟨"APIKey", by decide, by decide⟩
  exact ⟨h.1, h.2 (World.mk none (some "\x7b\"Username\": \"me\"\x7d") none none) rfl rfl⟩

end E621
